import Mathlib

/-!
Verification of the pd_project career-assistant repository.

This file gives a shallow embedding of the parts of the code that the
properties below talk about, and proves or refutes each property.

Conventions of the embedding:
* Python strings are Lean `String`s; `len` is `String.length` (both count
  code points).
* Python `str.strip()` is `pyStrip`, `s[:n]` is `pyTake`, `"\n".join`
  is `pyJoin`, `str.lower()` is `pyLower` (covering ASCII and the
  Cyrillic letters that occur in the sources), `needle in hay` is `pyIn`.
* Python dicts with a fixed key set become structures; an absent optional
  key becomes `none`.
* Fallible code (Python exceptions) becomes `Except`; where the caller's
  object state matters at raise time, the error value carries that state.
* The result of `json.dumps` on a tool output is modelled as the output
  itself: tool handlers produce their output already serialized as a
  `String`.
* `json.loads` (the Python standard library) is a parameter
  `parse : String -> Option Args` of the orchestrator model; parse failure
  (`json.JSONDecodeError`) is `none`.
-/

/-! ## Python string primitives -/

/-- Characters Python `str.strip()` removes (whitespace). -/
def isPySpace (c : Char) : Bool :=
  c == ' ' || c == '\t' || c == '\n' || c == '\r' || c == '\x0b' || c == '\x0c'

/-- Drop leading whitespace of a character list. -/
def dropLeading : List Char → List Char
  | [] => []
  | c :: rest => if isPySpace c then dropLeading rest else c :: rest

/-- Python `s.strip()`. -/
def pyStrip (s : String) : String :=
  ⟨(dropLeading (dropLeading s.data).reverse).reverse⟩

/-- Python `s[:n]` for `n ≥ 0`. -/
def pyTake (s : String) (n : Nat) : String := ⟨s.data.take n⟩

/-- Python `"\n".join(parts)`. -/
def pyJoin : List String → String
  | [] => ""
  | [s] => s
  | s :: rest => s ++ "\n" ++ pyJoin rest

/-- One character of Python `str.lower()`: ASCII plus the Cyrillic
uppercase range and Ё, which covers every string in the sources. -/
def pyLowerChar (c : Char) : Char :=
  if 0x410 ≤ c.toNat && c.toNat ≤ 0x42F then Char.ofNat (c.toNat + 0x20)
  else if c = 'Ё' then 'ё'
  else c.toLower

/-- Python `s.lower()`. -/
def pyLower (s : String) : String := ⟨s.data.map pyLowerChar⟩

/-- Is `needle` a prefix of `hay` (as character lists)? -/
def listStarts : List Char → List Char → Bool
  | [], _ => true
  | _ :: _, [] => false
  | a :: as, b :: bs => a == b && listStarts as bs

/-- Python `s.startswith(p)`. -/
def pyStartswith (p s : String) : Bool := listStarts p.data s.data

/-- Substring containment on character lists. -/
def listContainsSub (needle : List Char) : List Char → Bool
  | [] => needle.isEmpty
  | c :: rest => listStarts needle (c :: rest) || listContainsSub needle rest

/-- Python `needle in hay` on strings. -/
def pyIn (needle hay : String) : Bool := listContainsSub needle.data hay.data

/-! ## src/tools/pdf_utils.py : summarize_chunks -/

/-- The loop body of `summarize_chunks` (src/tools/pdf_utils.py, lines
22-38): accumulate trimmed non-empty chunks while the running total of
their lengths stays within `max_chars`; on overflow keep the truncated
remainder of the current chunk (if any budget is left) and stop. -/
def summarizeAux (max_chars : Nat) (total : Nat) : List String → List String
  | [] => []
  | chunk :: rest =>
    let c := pyStrip chunk
    if c = "" then summarizeAux max_chars total rest
    else if max_chars < total + c.length then
      let remaining := max_chars - total
      if remaining = 0 then [] else [pyTake c remaining]
    else c :: summarizeAux max_chars (total + c.length) rest

/-- Embeds `summarize_chunks(chunks, max_chars)` from src/tools/pdf_utils.py:
the accumulated segments joined with `"\n"`. -/
def summarize_chunks (chunks : List String) (max_chars : Nat) : String :=
  pyJoin (summarizeAux max_chars 0 chunks)

/-! ## src/agents/learning_agent.py : level order and time estimate -/

def LEVEL_ORDER : List String :=
  ["новичок", "стажер", "выпускник", "junior", "middle", "senior"]

/-- Python `list.index` returning `none` instead of raising `ValueError`. -/
def pyIndex : List String → String → Option Nat
  | [], _ => none
  | y :: ys, x => if y = x then some 0 else (pyIndex ys x).map (· + 1)

/-- Embeds `LearningAgent._estimate_time` (src/agents/learning_agent.py, lines
132-144): unknown current level falls back to index 0, unknown target
level to `start_index + 1`; duration is `2 + delta * 3` months rendered
as a `{months}–{months+2}` range. -/
def LearningAgent.estimate_time (current target : String) : String :=
  let start_index := (pyIndex LEVEL_ORDER (pyLower current)).getD 0
  let target_index :=
    match pyIndex LEVEL_ORDER (pyLower target) with
    | some i => i
    | none => start_index + 1
  let delta := target_index - start_index
  let months := 2 + delta * 3
  toString months ++ "–" ++ toString (months + 2) ++
    " месяцев при занятиях 12–15 часов в неделю"

/-! ## src/agents/career_agent.py : template groups -/

structure GroupData where
  resume_examples : List String
  cover_examples : List String
  resume_templates : List String
  cover_templates : List String
deriving DecidableEq

structure TemplateResult where
  group : String
  resume_examples : List String
  cover_examples : List String
  resume_templates : List String
  cover_templates : List String
deriving DecidableEq

/-- Embeds `CareerAgent._PROJECT_GROUPS` (src/agents/career_agent.py): the three
statically defined groups, in dict insertion order. -/
def PROJECT_GROUPS : List (String × GroupData) :=
  [ ("ИТ-продукты",
     { resume_examples :=
         [ "Фронтенд-разработчик: стек React/TypeScript, 2 pet-проекта, волонтёрство в open-source.",
           "Python backend: FastAPI, PostgreSQL, описанные кейсы оптимизации API (-30% latency).",
           "Fullstack стажёр: Next.js + Node, учебные проекты с деплоем на Render, участие в хакатонах." ],
       cover_examples :=
         [ "Письмо: интерес к продукту, ссылка на демо, 2 абзаца про вклад и мотивацию.",
           "Письмо: акцент на опыт командной разработки и готовность быстро учиться.",
           "Письмо: история проблемы пользователя и как кандидат хочет её решать в компании." ],
       resume_templates :=
         [ "ФИО | контакты | GitHub\nЦель\nНавыки (язык, фреймворки)\nОпыт/проекты\nОбразование\nСертификаты",
           "ФИО | роль\nКраткое summary (3 предложения)\nКейсы\nИнструменты\nОбразование и активность" ],
       cover_templates :=
         [ "Приветствие -> интерес к компании\n1) недавний успех\n2) связь опыта с задачами\nЗакрытие + контакты",
           "Крючок (продукт/миссия)\nОсновные навыки bullets\nПредложение о встрече\nБлагодарность" ] }),
    ("Данные и аналитика",
     { resume_examples :=
         [ "Аналитик данных: SQL, PowerBI, кейс по снижению затрат на 12%.",
           "Data scientist: sklearn, MLflow, pet-проект рекомендаций, Kaggle bronze.",
           "BI-аналитик: Tableau, автоматизация отчётности, практика A/B тестов." ],
       cover_examples :=
         [ "Письмо: метрики, которые кандидат улучшил, и ожидания от роли.",
           "Письмо: акцент на работающие дашборды и взаимодействие с бизнесом.",
           "Письмо: история обучения, почему выбирает именно эту индустрию." ],
       resume_templates :=
         [ "ФИО | направление\nSummary с цифрами\nHard skills (SQL, Python, BI)\nПроекты/опыт\nОбразование\nСообщества",
           "ФИО и цель\nСписок ключевых компетенций\nВклады в продукт\nОбразование и курсы\nПубликации/выступления" ],
       cover_templates :=
         [ "Обращение\nПроблема заказчика -> ваш опыт её решать\nПример метрики\nПризыв созвониться",
           "Структура STAR: ситуация, задача, действия, результат -> связь с вакансией" ] }),
    ("Продукт и маркетинг",
     { resume_examples :=
         [ "Product manager: discovery, A/B тесты, рост MAU на 18%.",
           "Product marketing: go-to-market план, сегментация, рост конверсии лендинга.",
           "Growth specialist: CRM-воронки, эксперименты, автоматизация рассылок." ],
       cover_examples :=
         [ "Письмо: что понравилось в продукте и какую гипотезу кандидат готов проверить.",
           "Письмо: опыт работы с кросс-функциональными командами, упоминание цикла PDCA.",
           "Письмо: история пользователя и предложение по улучшению, которое кандидат уже проверил." ],
       resume_templates :=
         [ "ФИО | роль\nSummary\nКлючевые достижения (цифры)\nОпыт (продукты, метрики)\nНавыки\nОбразование",
           "ФИО, контакты\nМиссия кандидата\nОпыт product discovery/delivery\nИнструменты\nСофт-скиллы\nХобби" ],
       cover_templates :=
         [ "Hook про рынок\n2-3 маркера экспертизы\nПредложение эксперимента\nCTA",
           "Почему компания\nКейс из опыта (результат)\nКак поможет продукту\nПожелание связаться" ] }) ]

/-- Embeds `CareerAgent._build_result` (src/agents/career_agent.py, lines
178-186). `self._PROJECT_GROUPS[group]` raises `KeyError` for an unknown
key; the error value carries the offending key. -/
def CareerAgent.build_result (group : String) : Except String TemplateResult :=
  match (PROJECT_GROUPS.find? (fun p => p.1 = group)).map (fun p => p.2) with
  | none => .error ("KeyError: " ++ group)
  | some data =>
    .ok { group := group,
          resume_examples := data.resume_examples,
          cover_examples := data.cover_examples,
          resume_templates := data.resume_templates,
          cover_templates := data.cover_templates }

/-- Embeds `[self._build_result(name) for name in self._PROJECT_GROUPS]` with
exception propagation. -/
def CareerAgent.buildAll : List String → Except String (List TemplateResult)
  | [] => .ok []
  | n :: rest =>
    match CareerAgent.build_result n with
    | .error e => .error e
    | .ok r => (CareerAgent.buildAll rest).map (fun rs => r :: rs)

/-- Embeds `CareerAgent.provide_templates` (src/agents/career_agent.py, lines
107-110): `if group:` is Python truthiness, so both `None` and the empty
string select the all-groups branch. -/
def CareerAgent.provide_templates (group : Option String) :
    Except String (List TemplateResult) :=
  match group with
  | some g =>
    if g = "" then CareerAgent.buildAll (PROJECT_GROUPS.map (fun p => p.1))
    else (CareerAgent.build_result g).map (fun r => [r])
  | none => CareerAgent.buildAll (PROJECT_GROUPS.map (fun p => p.1))

/-- A value of the dict produced by `Orchestrator._template_to_dict`. -/
inductive DictVal where
  | s (v : String)
  | l (v : List String)
deriving DecidableEq

/-- Embeds `Orchestrator._template_to_dict` (src/agents/orchestrator.py). -/
def Orchestrator.template_to_dict (r : TemplateResult) : List (String × DictVal) :=
  [ ("группа", .s r.group),
    ("примеры резюме", .l r.resume_examples),
    ("примеры сопроводительных", .l r.cover_examples),
    ("шаблоны резюме", .l r.resume_templates),
    ("шаблоны сопроводительных", .l r.cover_templates) ]

/-- Embeds `Orchestrator.fetch_templates` (src/agents/orchestrator.py, lines
45-47): delegates to `provide_templates` and converts each result. -/
def Orchestrator.fetch_templates (group : Option String) :
    Except String (List (List (String × DictVal))) :=
  (CareerAgent.provide_templates group).map (List.map Orchestrator.template_to_dict)

/-! ## src/tools/base.py : Tool and ToolRegistry -/

/-- A parsed JSON argument object (`json.loads` result restricted to the
flat string maps the tools receive). The empty Python dict `{}` is `[]`. -/
abbrev Args := List (String × String)

/-- Embeds `Tool` (src/tools/base.py): `input_schema` is kept as its serialized
form; `handler` returns its output already serialized. -/
structure Tool where
  name : String
  description : String
  input_schema : String
  handler : Args → String

/-- Embeds `Tool.run` (src/tools/base.py): `payload or {}`. -/
def Tool.run (t : Tool) (payload : Option Args) : String :=
  t.handler (payload.getD [])

/-- The `_tools` dict of `ToolRegistry`, in insertion order. -/
abbrev ToolRegistry := List (String × Tool)

/-- Python dict insertion: a duplicate key keeps its position and takes
the new value, a new key is appended. -/
def dictInsert (d : ToolRegistry) (k : String) (v : Tool) : ToolRegistry :=
  if d.any (fun p => p.1 = k) then
    d.map (fun p => if p.1 = k then (k, v) else p)
  else d ++ [(k, v)]

/-- Embeds `ToolRegistry.__init__`: `{tool.name: tool for tool in tools}`. -/
def mkRegistry (tools : List Tool) : ToolRegistry :=
  tools.foldl (fun d t => dictInsert d t.name t) []

/-- Dict lookup `self._tools.get(name)` / `name in self._tools`. -/
def ToolRegistry.lookup (r : ToolRegistry) (name : String) : Option Tool :=
  (r.find? (fun p => p.1 = name)).map (fun p => p.2)

/-- Embeds `ToolRegistry.run` (src/tools/base.py, lines 45-48): raises `KeyError`
for an unregistered name. -/
def ToolRegistry.run (r : ToolRegistry) (name : String) (payload : Option Args) :
    Except String String :=
  match r.lookup name with
  | none => .error ("Tool " ++ name ++ " is not registered")
  | some t => .ok (t.run payload)

/-- One entry of `ToolRegistry.describe_for_llm`; the constant
`"type": "function"` wrapper is implicit in the structure itself. -/
structure ToolDescriptor where
  name : String
  description : String
  parameters : String
deriving DecidableEq

/-- Embeds `ToolRegistry.describe_for_llm` (src/tools/base.py): one descriptor
per dict value, in order. -/
def ToolRegistry.describe_for_llm (r : ToolRegistry) : List ToolDescriptor :=
  r.map (fun p =>
    { name := p.2.name, description := p.2.description,
      parameters := p.2.input_schema })

/-! ## src/clients/gigachat.py : payloads, responses, availability -/

/-- A conversation message: `{"role": ..., "content": ...}`, with the
optional `"name"` key used by tool-role messages. -/
structure Message where
  role : String
  content : String
  name : Option String := none
deriving DecidableEq

/-- Embeds `GigaChatClient.available` (src/clients/gigachat.py, lines 33-35):
`bool(self.api_key)` — `None` and `""` are both falsy. -/
def availableOf (api_key : Option String) : Bool :=
  match api_key with
  | none => false
  | some k => !(k == "")

/-- The construction-time configuration of a `GigaChatClient` that the
chat turn reads: credential and model name. -/
structure ClientCfg where
  api_key : Option String := none
  model : String := "GigaChat"

/-- The JSON body `requests.post` would send: `tools` / `tool_choice` are
`none` when the corresponding key is absent from the payload. -/
structure Payload where
  model : String
  messages : List Message
  tools : Option (List ToolDescriptor) := none
  tool_choice : Option String := none
deriving DecidableEq

/-- Payload construction in `GigaChatClient.chat` (src/clients/gigachat.py,
lines 37-45): `if tools:` skips both `None` and `[]`; `tool_choice` is
attached only inside that branch and only when itself truthy. -/
def mkPayload (model : String) (messages : List Message)
    (tools : Option (List ToolDescriptor)) (tool_choice : Option String) : Payload :=
  let base : Payload := { model := model, messages := messages }
  match tools with
  | none => base
  | some ts =>
    if ts.isEmpty then base
    else
      match tool_choice with
      | none => { base with tools := some ts }
      | some tc =>
        if tc = "" then { base with tools := some ts }
        else { base with tools := some ts, tool_choice := some tc }

/-- The `"function"` object of a remote tool call:
`{"name": ..., "arguments": ...}`, either key possibly absent. -/
structure ToolCallFunction where
  name : Option String := none
  arguments : Option String := none
deriving DecidableEq

/-- One entry of a remote `tool_calls` list: `call.get("function", {})`
defaults an absent object to `{}`. -/
structure RespToolCall where
  function : Option ToolCallFunction := none
deriving DecidableEq

/-- A remote assistant message. An absent `tool_calls` key and an empty
list are identified (both are falsy and both dispatch zero calls). -/
structure RespMessage where
  content : Option String := none
  tool_calls : List RespToolCall := []
deriving DecidableEq

/-- One element of a remote `choices` list. -/
structure Choice where
  message : Option RespMessage := none
deriving DecidableEq

/-- A remote chat-completion response body. -/
structure Response where
  choices : Option (List Choice) := none
deriving DecidableEq

/-- Embeds `response.get("choices", [{}])[0].get("message", {})`: an absent
`choices` key defaults to `[{}]` whose first element carries the empty
message; a present but empty list raises `IndexError`. -/
def respMessage (r : Response) : Except String RespMessage :=
  match r.choices with
  | none => .ok {}
  | some [] => .error "IndexError: list index out of range"
  | some (c :: _) => .ok (c.message.getD {})

/-! ## src/agents/orchestrator.py : the chat relay -/

def BASE_PROMPT : String :=
  "Ты мульти-агентный карьерный ассистент. Используй инструменты карьерного и учебного агентов, если это помогает ответить. Говори на русском и объясняй рекомендации подробно."

structure AttachedDocument where
  name : String
  excerpt : String
deriving DecidableEq

/-- The mutable state of an `Orchestrator` instance that the chat turn
touches. -/
structure OrchState where
  registry : ToolRegistry
  chat_history : List Message
  attachments : List AttachedDocument

/-- One ledger entry of `used_tools`. The online path stores
`{"name", "arguments", "output"}`; the offline path stores only
`{"name", "output"}`, hence the optional `arguments`. -/
structure UsedTool where
  name : String
  arguments : Option Args := none
  output : String
deriving DecidableEq

/-- The dict `Orchestrator.chat` returns. -/
structure ChatResult where
  answer : String
  used_tools : List UsedTool
  attachments : List String
deriving DecidableEq

/-- Embeds `Orchestrator._build_system_prompt` (src/agents/orchestrator.py). -/
def Orchestrator.build_system_prompt (attachments : List AttachedDocument) : String :=
  if attachments.isEmpty then BASE_PROMPT
  else
    BASE_PROMPT ++ "\n\nПрикрепленные документы:\n" ++
      pyJoin (attachments.map (fun d => "- " ++ d.name ++ ": " ++ pyTake d.excerpt 400))

/-- The name a call dispatches under: `function.get("name")` with the
missing-dict defaults applied. -/
def callName (c : RespToolCall) : String :=
  ((c.function.getD {}).name).getD ""

/-- Models `if not name: continue` — a call is dispatched only when its name is
present and non-empty (Python truthiness). -/
def callNameOk (c : RespToolCall) : Bool :=
  match (c.function.getD {}).name with
  | none => false
  | some s => !(s == "")

/-- Models `arguments_raw = function.get("arguments") or "{}"`. -/
def getRawArgs (c : RespToolCall) : String :=
  match (c.function.getD {}).arguments with
  | none => "\x7b\x7d"
  | some s => if s = "" then "\x7b\x7d" else s

/-- Embeds `Orchestrator._process_tool_calls` (src/agents/orchestrator.py, lines
99-116), threading the appended history explicitly. Only
`json.JSONDecodeError` is caught (malformed arguments become `{}`); the
`KeyError` of `ToolRegistry.run` propagates, carrying the history as
appended so far. -/
def Orchestrator.process_tool_calls (reg : ToolRegistry) (parse : String → Option Args)
    (hist : List Message) :
    List RespToolCall → Except (String × List Message) (List UsedTool × List Message)
  | [] => .ok ([], hist)
  | call :: rest =>
    if callNameOk call = false then
      Orchestrator.process_tool_calls reg parse hist rest
    else
      let arguments := (parse (getRawArgs call)).getD []
      match reg.run (callName call) (some arguments) with
      | .error e => .error (e, hist)
      | .ok output =>
        let hist1 := hist ++
          [{ role := "tool", name := some (callName call), content := output }]
        (Orchestrator.process_tool_calls reg parse hist1 rest).map
          (fun pr => (({ name := callName call, arguments := some arguments,
                         output := output } : UsedTool) :: pr.1, pr.2))

/-- The keyword → tool-name selection of `Orchestrator._offline_chat`
(src/agents/orchestrator.py, lines 118-131). -/
def Orchestrator.offlineToolNames (user_message : String) : List String :=
  let lower := pyLower user_message
  let names :=
    (if pyIn "резюме" lower then ["career_resume_examples"] else []) ++
    (if pyIn "ваканс" lower then ["career_vacancy_reviews"] else []) ++
    (if pyIn "обуч" lower || pyIn "курс" lower || pyIn "материал" lower then
      ["learning_materials_with_reviews"] else []) ++
    (if pyIn "концеп" lower || pyIn "объясн" lower then
      ["learning_simple_explanations"] else [])
  if names.isEmpty then ["learning_career_paths"] else names

/-- Embeds `Orchestrator._offline_chat` (src/agents/orchestrator.py, lines
118-144): run the selected tools (skipping `KeyError`s), summarize their
outputs after a fixed headline, append the answer to the history. -/
def Orchestrator.offline_chat (st : OrchState) (user_message : String) :
    ChatResult × OrchState :=
  let tool_names := Orchestrator.offlineToolNames user_message
  let tool_outputs : List UsedTool := tool_names.filterMap (fun n =>
    match st.registry.run n none with
    | .ok output => some { name := n, output := output }
    | .error _ => none)
  let summary_parts :=
    "GigaChat временно недоступен, но я использовал локальные инструменты." ::
      tool_outputs.map (fun item => "Tool " ++ item.name ++ ": " ++ pyTake item.output 600)
  let answer := pyJoin summary_parts
  let st1 := { st with chat_history :=
    st.chat_history ++ [{ role := "assistant", content := answer }] }
  ({ answer := answer, used_tools := tool_outputs,
     attachments := st1.attachments.map AttachedDocument.name }, st1)

/-- Embeds `Orchestrator.chat` (src/agents/orchestrator.py, lines 64-97).

The remote service is scripted: `resp1` is what the first
chat-completion request would return and `resp2` the second; the third
component of a successful result lists the payloads actually sent, in
order, so that theorems can speak about how many round-trips happened
and what each carried. An uncaught Python exception is an `.error`
carrying the orchestrator state as mutated up to the raise. -/
def Orchestrator.chat (cfg : ClientCfg) (st : OrchState)
    (parse : String → Option Args) (resp1 resp2 : Response)
    (user_message : String) :
    Except (String × OrchState) (ChatResult × OrchState × List Payload) :=
  let user_entry : Message := { role := "user", content := user_message }
  let system_message : Message :=
    { role := "system", content := Orchestrator.build_system_prompt st.attachments }
  let messages : List Message := system_message :: (st.chat_history ++ [user_entry])
  if availableOf cfg.api_key = false then
    let st1 : OrchState :=
      { st with chat_history := st.chat_history ++ [user_entry] }
    let out := Orchestrator.offline_chat st1 user_message
    .ok (out.1, out.2, [])
  else
    let req1 : Payload :=
      mkPayload cfg.model messages (some st.registry.describe_for_llm) (some "auto")
    match respMessage resp1 with
    | .error e => .error (e, st)
    | .ok assistant_message =>
      let st1 : OrchState :=
        { st with chat_history := st.chat_history ++ [user_entry] }
      match assistant_message.tool_calls with
      | [] =>
        let assistant_content := assistant_message.content.getD ""
        let st2 := { st1 with chat_history := st1.chat_history ++
          [{ role := "assistant", content := assistant_content }] }
        .ok ({ answer := assistant_content, used_tools := [],
               attachments := st2.attachments.map AttachedDocument.name },
             st2, [req1])
      | _ :: _ =>
        let st2 := { st1 with chat_history := st1.chat_history ++
          [({ role := "assistant",
              content := assistant_message.content.getD "" } : Message)] }
        match Orchestrator.process_tool_calls st.registry parse st2.chat_history
            assistant_message.tool_calls with
        | .error (e, hist) => .error (e, { st2 with chat_history := hist })
        | .ok (used_tools, hist) =>
          let st3 := { st2 with chat_history := hist }
          let follow_up_messages :=
            ({ role := "system",
               content := Orchestrator.build_system_prompt st3.attachments } : Message) ::
              st3.chat_history
          let req2 : Payload := mkPayload cfg.model follow_up_messages none (some "auto")
          match respMessage resp2 with
          | .error e => .error (e, st3)
          | .ok m2 =>
            let assistant_content := m2.content.getD ""
            let st4 := { st3 with chat_history := st3.chat_history ++
              [{ role := "assistant", content := assistant_content }] }
            .ok ({ answer := assistant_content, used_tools := used_tools,
                   attachments := st4.attachments.map AttachedDocument.name },
                 st4, [req1, req2])

/-! ## Derived descriptions used by the orchestrator theorems -/

/-- The user entry `{"role": "user", "content": user_message}`. -/
def userMsg (m : String) : Message := { role := "user", content := m }

/-- The system message rebuilt on each request of a turn. -/
def sysMsgOf (st : OrchState) : Message :=
  { role := "system", content := Orchestrator.build_system_prompt st.attachments }

/-- The assistant message echoing the first response into history. -/
def assistMsgOf (am : RespMessage) : Message :=
  { role := "assistant", content := am.content.getD "" }

/-- The tool-role message a dispatched call appends (meaningful when the
call's name is registered; the `none` branch is unreachable under the
theorems' hypotheses). -/
def toolMsgOf (reg : ToolRegistry) (parse : String → Option Args)
    (c : RespToolCall) : Message :=
  { role := "tool", name := some (callName c),
    content :=
      match reg.lookup (callName c) with
      | some t => t.handler ((parse (getRawArgs c)).getD [])
      | none => "" }

/-- The used-tools ledger entry a dispatched call produces. -/
def usedToolOf (reg : ToolRegistry) (parse : String → Option Args)
    (c : RespToolCall) : UsedTool :=
  { name := callName c, arguments := some ((parse (getRawArgs c)).getD []),
    output :=
      match reg.lookup (callName c) with
      | some t => t.handler ((parse (getRawArgs c)).getD [])
      | none => "" }

/-- The history after `_process_tool_calls`, whether it returned or raised. -/
def histAfterPTC
    (r : Except (String × List Message) (List UsedTool × List Message)) :
    List Message :=
  match r with
  | .ok (_, h) => h
  | .error (_, h) => h

/-- The orchestrator state after `chat`, whether it returned or raised. -/
def stateAfter
    (r : Except (String × OrchState) (ChatResult × OrchState × List Payload)) :
    OrchState :=
  match r with
  | .ok (_, st, _) => st
  | .error (_, st) => st

/-! ## Concrete instances used by closed witness statements -/

/-- Is an `Except` a success? -/
def isOkE {ε α : Type} : Except ε α → Bool
  | .ok _ => true
  | .error _ => false

/-- Sample tool instance (a registered name with a schematic handler). -/
def wTool1 : Tool :=
  { name := "career_resume_examples", description := "d1", input_schema := "s1",
    handler := fun _ => "out1" }

/-- Second sample tool instance. -/
def wTool2 : Tool :=
  { name := "learning_career_paths", description := "d2", input_schema := "s2",
    handler := fun _ => "out2" }

/-- Sample orchestrator state: two registered tools, empty history. -/
def wState : OrchState :=
  { registry := mkRegistry [wTool1, wTool2], chat_history := [], attachments := [] }

/-- Sample online client configuration. -/
def wCfg : ClientCfg := { api_key := some "key", model := "GigaChat" }

/-- Sample always-succeeding JSON parse. -/
def wParse : String → Option Args := fun _ => some []

/-- Sample always-failing JSON parse (malformed arguments). -/
def wParseFail : String → Option Args := fun _ => none

/-- Sample remote call to the first registered tool. -/
def wCall1 : RespToolCall :=
  { function := some { name := some "career_resume_examples",
                       arguments := some "\x7b\x7d" } }

/-- Sample remote call to the second registered tool. -/
def wCall2 : RespToolCall :=
  { function := some { name := some "learning_career_paths", arguments := none } }

/-- Sample remote call naming an unregistered tool. -/
def wCallFoo : RespToolCall :=
  { function := some { name := some "foo", arguments := some "\x7b\x7d" } }

/-- Wraps an assistant message as a single-choice response body. -/
def wResp (m : RespMessage) : Response := { choices := some [{ message := some m }] }

/-- Sample first response requesting both registered tools. -/
def wAm : RespMessage := { content := some "", tool_calls := [wCall1, wCall2] }

/-- Sample first response requesting the unregistered tool. -/
def wAmFoo : RespMessage := { content := some "", tool_calls := [wCallFoo] }

/-- Sample first response with no tool calls. -/
def wAmPlain : RespMessage := { content := some "ответ без инструментов" }

/-- Sample follow-up response. -/
def wM2 : RespMessage := { content := some "готово", tool_calls := [] }

/-! ## Theorems -/

theorem data_of_append (a b : String) : (a ++ b).data = a.data ++ b.data := by
  cases a; cases b; rfl

theorem length_of_append (a b : String) :
    (a ++ b).length = a.length + b.length := by
  show (a ++ b).data.length = a.data.length + b.data.length
  rw [data_of_append, List.length_append]

theorem listStarts_append (p : List Char) :
    ∀ a b : List Char, listStarts p a = true → listStarts p (a ++ b) = true := by
  induction p with
  | nil => intro a b _; rfl
  | cons x xs ih =>
    intro a b h
    cases a with
    | nil => simp [listStarts] at h
    | cons y ys =>
      simp only [listStarts, Bool.and_eq_true] at h ⊢
      exact ⟨h.1, ih ys b h.2⟩

theorem pyStartswith_pyJoin (p s : String) (parts : List String)
    (h : pyStartswith p s = true) :
    pyStartswith p (pyJoin (s :: parts)) = true := by
  cases parts with
  | nil => simpa [pyJoin] using h
  | cons q qs =>
    show listStarts p.data ((s ++ "\n" ++ pyJoin (q :: qs)).data) = true
    rw [data_of_append, data_of_append, List.append_assoc]
    exact listStarts_append p.data s.data _ h

theorem histAfterPTC_map_cons (r : Except (String × List Message) (List UsedTool × List Message))
    (e : UsedTool) :
    histAfterPTC (r.map (fun pr => (e :: pr.1, pr.2))) = histAfterPTC r := by
  cases r with
  | error p => rfl
  | ok pr => rfl

/-- When every requested call has a present, non-empty, registered name,
`_process_tool_calls` succeeds, appends exactly one tool-role message per
call in call order, and ledgers them in the same order. -/
theorem process_tool_calls_ok (reg : ToolRegistry) (parse : String → Option Args) :
    ∀ (calls : List RespToolCall) (hist : List Message),
      (∀ c ∈ calls, callNameOk c = true ∧ (reg.lookup (callName c)).isSome = true) →
      Orchestrator.process_tool_calls reg parse hist calls =
        .ok (calls.map (usedToolOf reg parse), hist ++ calls.map (toolMsgOf reg parse)) := by
  intro calls
  induction calls with
  | nil => intro hist _; simp [Orchestrator.process_tool_calls]
  | cons c rest ih =>
    intro hist hv
    obtain ⟨hok, hsome⟩ := hv c (List.mem_cons_self c rest)
    obtain ⟨t, ht⟩ := Option.isSome_iff_exists.mp hsome
    have hrest : ∀ x ∈ rest, callNameOk x = true ∧ (reg.lookup (callName x)).isSome = true :=
      fun x hx => hv x (List.mem_cons_of_mem c hx)
    simp only [Orchestrator.process_tool_calls, hok, Bool.true_eq_false, if_false,
      ToolRegistry.run, ht, Tool.run]
    rw [ih _ hrest]
    simp [Except.map, toolMsgOf, usedToolOf, ht, List.append_assoc]

/-- The dispatcher `_process_tool_calls` only appends to the history it is given,
whether it returns or raises. -/
theorem process_tool_calls_appends (reg : ToolRegistry) (parse : String → Option Args) :
    ∀ (calls : List RespToolCall) (hist : List Message),
      ∃ t, histAfterPTC (Orchestrator.process_tool_calls reg parse hist calls) = hist ++ t := by
  intro calls
  induction calls with
  | nil =>
    intro hist
    exact ⟨[], by simp [Orchestrator.process_tool_calls, histAfterPTC]⟩
  | cons c rest ih =>
    intro hist
    cases hok : callNameOk c with
    | false => simpa [Orchestrator.process_tool_calls, hok] using ih hist
    | true =>
      simp only [Orchestrator.process_tool_calls, hok, Bool.true_eq_false, if_false]
      cases hrun : ToolRegistry.run reg (callName c) (some ((parse (getRawArgs c)).getD [])) with
      | error e => exact ⟨[], by simp [histAfterPTC, List.append_nil]⟩
      | ok output =>
        obtain ⟨t2, ht2⟩ :=
          ih (hist ++ [{ role := "tool", name := some (callName c), content := output }])
        refine ⟨({ role := "tool", name := some (callName c), content := output } : Message) :: t2, ?_⟩
        rw [histAfterPTC_map_cons, ht2]
        simp

/-- The online tool-dispatch branch of `Orchestrator.chat` in full: with a
credential present, a first response whose message carries tool calls that
all name registered tools, and a well-formed follow-up response, the turn
returns the follow-up content, ledgers every call in order, appends
user / assistant / one tool message per call / final assistant to the
history, and issues exactly the two scripted requests. -/
theorem chat_tool_spec (cfg : ClientCfg) (st : OrchState) (parse : String → Option Args)
    (resp1 resp2 : Response) (msg : String) (am m2 : RespMessage)
    (hav : availableOf cfg.api_key = true)
    (h1 : respMessage resp1 = .ok am)
    (h2 : respMessage resp2 = .ok m2)
    (hne : am.tool_calls ≠ [])
    (hv : ∀ c ∈ am.tool_calls, callNameOk c = true ∧
      (st.registry.lookup (callName c)).isSome = true) :
    Orchestrator.chat cfg st parse resp1 resp2 msg = .ok
      ({ answer := m2.content.getD "",
         used_tools := am.tool_calls.map (usedToolOf st.registry parse),
         attachments := st.attachments.map AttachedDocument.name },
       { st with chat_history :=
           st.chat_history ++ [userMsg msg, assistMsgOf am] ++
             am.tool_calls.map (toolMsgOf st.registry parse) ++
             [({ role := "assistant", content := m2.content.getD "" } : Message)] },
       [ mkPayload cfg.model (sysMsgOf st :: (st.chat_history ++ [userMsg msg]))
           (some st.registry.describe_for_llm) (some "auto"),
         mkPayload cfg.model
           (sysMsgOf st :: (st.chat_history ++ [userMsg msg, assistMsgOf am] ++
             am.tool_calls.map (toolMsgOf st.registry parse))) none (some "auto") ]) := by
  cases hcalls : am.tool_calls with
  | nil => exact absurd hcalls hne
  | cons c0 rest0 =>
    have hv' : ∀ c ∈ c0 :: rest0, callNameOk c = true ∧
        (st.registry.lookup (callName c)).isSome = true := by
      rw [← hcalls]; exact hv
    simp only [Orchestrator.chat, hav, Bool.true_eq_false, if_false, h1, hcalls]
    rw [process_tool_calls_ok st.registry parse (c0 :: rest0) _ hv']
    simp only [h2]
    simp [userMsg, sysMsgOf, assistMsgOf, List.append_assoc]

theorem length_pyTake (s : String) (n : Nat) :
    (pyTake s n).length = min n s.length := by
  show (s.data.take n).length = min n s.data.length
  exact List.length_take n s.data

/-- The running total of segment lengths accumulated by `summarize_chunks`
never exceeds the budget. -/
theorem summarizeAux_sum_le (max_chars : Nat) :
    ∀ (chunks : List String) (total : Nat), total ≤ max_chars →
      ((summarizeAux max_chars total chunks).map String.length).sum + total ≤ max_chars := by
  intro chunks
  induction chunks with
  | nil => intro total h; simpa [summarizeAux] using h
  | cons chunk rest ih =>
    intro total h
    by_cases hc : pyStrip chunk = ""
    · simpa [summarizeAux, hc] using ih total h
    · by_cases hover : max_chars < total + (pyStrip chunk).length
      · by_cases hrem : max_chars - total = 0
        · simpa [summarizeAux, hc, hover, hrem] using h
        · simp only [summarizeAux, hc, hover, hrem, if_true, if_false, if_neg, ite_false,
            ite_true, List.map_cons, List.map_nil, List.sum_cons, List.sum_nil,
            length_pyTake]
          have h1 := Nat.min_le_left (max_chars - total) (pyStrip chunk).length
          simp [hc, hover, hrem, length_pyTake]
          omega
      · have hle : total + (pyStrip chunk).length ≤ max_chars := Nat.le_of_not_lt hover
        have h2 := ih (total + (pyStrip chunk).length) hle
        simp only [summarizeAux, hc, hover]
        simp [hc, hover]
        omega

/-- The loop of `summarize_chunks` never keeps more segments than there were chunks. -/
theorem summarizeAux_length_le (max_chars : Nat) :
    ∀ (chunks : List String) (total : Nat),
      (summarizeAux max_chars total chunks).length ≤ chunks.length := by
  intro chunks
  induction chunks with
  | nil => intro total; simp [summarizeAux]
  | cons chunk rest ih =>
    intro total
    by_cases hc : pyStrip chunk = ""
    · have h1 := ih total
      simp [summarizeAux, hc]
      omega
    · by_cases hover : max_chars < total + (pyStrip chunk).length
      · by_cases hrem : max_chars - total = 0 <;> simp [summarizeAux, hc, hover, hrem]
      · have h1 := ih (total + (pyStrip chunk).length)
        simp [summarizeAux, hc, hover]
        omega

/-- Joining with `"\n"` adds at most one character per part. -/
theorem pyJoin_length_le :
    ∀ parts : List String,
      (pyJoin parts).length ≤ (parts.map String.length).sum + parts.length := by
  intro parts
  induction parts with
  | nil => simp [pyJoin]
  | cons s rest ih =>
    cases rest with
    | nil => simp [pyJoin]
    | cons q qs =>
      have hlen : (pyJoin (s :: q :: qs)).length =
          s.length + 1 + (pyJoin (q :: qs)).length := by
        show (s ++ "\n" ++ pyJoin (q :: qs)).length = _
        rw [length_of_append, length_of_append]
        rfl
      simp only [List.map_cons, List.sum_cons, List.length_cons]
      rw [hlen]
      simp only [List.map_cons, List.sum_cons, List.length_cons] at ih
      omega

/-- C2 (amended): for every list of chunks and budget, the sum of the
lengths of the kept segments is at most `max_chars`; only the `"\n"`
separators inserted by the final join escape the budget, so the result
length is at most `max_chars + chunks.length`, and for inputs of at most
one chunk — the only shape the repository ever passes — it is at most
`max_chars`; when a single trimmed chunk overflows a positive budget it
is truncated to exactly the budget rather than dropped. -/
theorem summarize_chunks_length (chunks : List String) (max_chars : Nat) :
    ((summarizeAux max_chars 0 chunks).map String.length).sum ≤ max_chars ∧
    (summarize_chunks chunks max_chars).length ≤ max_chars + chunks.length ∧
    (chunks.length ≤ 1 → (summarize_chunks chunks max_chars).length ≤ max_chars) ∧
    (∀ s : String, 0 < max_chars → max_chars < (pyStrip s).length →
      summarizeAux max_chars 0 [s] = [pyTake (pyStrip s) max_chars]) := by
  have hsum := summarizeAux_sum_le max_chars chunks 0 (Nat.zero_le _)
  refine ⟨by omega, ?_, ?_, ?_⟩
  · have h1 := pyJoin_length_le (summarizeAux max_chars 0 chunks)
    have h2 := summarizeAux_length_le max_chars chunks 0
    show (pyJoin (summarizeAux max_chars 0 chunks)).length ≤ _
    omega
  · intro hlen
    have h2 := summarizeAux_length_le max_chars chunks 0
    cases hseg : summarizeAux max_chars 0 chunks with
    | nil => simp [summarize_chunks, hseg, pyJoin]
    | cons x xs =>
      rw [hseg] at h2 hsum
      cases xs with
      | nil =>
        simp only [summarize_chunks, hseg, pyJoin]
        simp at hsum
        omega
      | cons y ys =>
        simp only [List.length_cons] at h2
        omega
  · intro s hpos hlen
    have hne : ¬ (pyStrip s = "") := by
      intro h
      have : (pyStrip s).length = 0 := by rw [h]; rfl
      omega
    have hrem : ¬ (max_chars = 0) := by omega
    simp [summarizeAux, hne, hlen, hrem]

/-- C2 counterexample: with chunks `["aa", "bb"]` and budget 4 the code
keeps both segments (their lengths sum to exactly 4) and then joins them
with an uncounted newline, returning `"aa\nbb"` of length 5 > 4. -/
theorem summarize_chunks_over_budget :
    summarize_chunks ["aa", "bb"] 4 = "aa\nbb" ∧
    (summarize_chunks ["aa", "bb"] 4).length = 5 ∧
    ¬ ((summarize_chunks ["aa", "bb"] 4).length ≤ 4) := by
  refine ⟨by decide, by decide, by decide⟩

/-- Witness for `summarize_chunks_length` at chunks `["hello"]`, budget 3. -/
theorem summarize_chunks_length_witness :
    ((summarizeAux 3 0 ["hello"]).map String.length).sum ≤ 3 ∧
    (summarize_chunks ["hello"] 3).length ≤ 3 + (["hello"] : List String).length ∧
    (summarize_chunks ["hello"] 3).length ≤ 3 ∧
    summarizeAux 3 0 ["hello"] = [pyTake (pyStrip "hello") 3] :=
  ⟨(summarize_chunks_length ["hello"] 3).1,
   (summarize_chunks_length ["hello"] 3).2.1,
   (summarize_chunks_length ["hello"] 3).2.2.1 (by decide),
   (summarize_chunks_length ["hello"] 3).2.2.2 "hello" (by decide) (by decide)⟩

/-- C9: a roadmap request from current level "junior" to target level
"senior" finds indices 3 and 5 in the level order, giving an estimate of
`2 + (5 - 3) * 3 = 8` months rendered as the range "8–10". -/
theorem estimate_time_junior_senior :
    LearningAgent.estimate_time "junior" "senior" =
      "8–10 месяцев при занятиях 12–15 часов в неделю" ∧
    pyIndex LEVEL_ORDER "junior" = some 3 ∧
    pyIndex LEVEL_ORDER "senior" = some 5 ∧
    2 + (5 - 3) * 3 = 8 := by
  refine ⟨by decide, by decide, by decide, rfl⟩

/-- C10 (amended): `fetch_templates` with a non-empty group name that is
not one of the three statically defined groups raises an uncaught
`KeyError`; with no group (and also with the empty string, which Python
truthiness sends down the same branch) it returns one result per defined
group, three in total, in definition order. -/
theorem fetch_templates_spec (g : String)
    (hg : ¬ (g = "")) (hmem : g ∉ PROJECT_GROUPS.map (fun p => p.1)) :
    Orchestrator.fetch_templates (some g) = .error ("KeyError: " ++ g) ∧
    ∃ rs, CareerAgent.provide_templates none = .ok rs ∧
      rs.map TemplateResult.group = PROJECT_GROUPS.map (fun p => p.1) ∧
      rs.length = 3 ∧
      Orchestrator.fetch_templates none = .ok (rs.map Orchestrator.template_to_dict) := by
  constructor
  · have hfind : PROJECT_GROUPS.find? (fun p => p.1 = g) = none := by
      rw [List.find?_eq_none]
      intro p hp
      simp only [decide_eq_true_eq]
      exact fun h => hmem (h ▸ List.mem_map_of_mem (fun p => p.1) hp)
    simp [Orchestrator.fetch_templates, CareerAgent.provide_templates, hg,
      CareerAgent.build_result, hfind, Except.map]
  · exact ⟨_, rfl, by decide, by decide, rfl⟩

/-- C10 counterexample: the empty string is not one of the three group
names, yet `fetch_templates("")` does not raise — Python truthiness sends
it down the no-group branch, returning all three groups. -/
theorem fetch_templates_empty_group :
    Orchestrator.fetch_templates (some "") = Orchestrator.fetch_templates none ∧
    isOkE (Orchestrator.fetch_templates (some "")) = true ∧
    (Orchestrator.fetch_templates (some "")).toOption.map List.length = some 3 :=
  ⟨rfl, rfl, rfl⟩

/-- Witness for `fetch_templates_spec` at the unknown group "frontend". -/
theorem fetch_templates_spec_witness :
    Orchestrator.fetch_templates (some "frontend") = .error ("KeyError: " ++ "frontend") ∧
    ∃ rs, CareerAgent.provide_templates none = .ok rs ∧
      rs.map TemplateResult.group = PROJECT_GROUPS.map (fun p => p.1) ∧
      rs.length = 3 ∧
      Orchestrator.fetch_templates none = .ok (rs.map Orchestrator.template_to_dict) :=
  fetch_templates_spec "frontend" (by decide) (by decide)

/-- C3: in online mode, when the first response requests tool calls
naming N distinct registered tools, exactly N tool-role messages are
appended to the history — one per call, in the order the calls appear —
and all of them are already part of the follow-up request's message list
(the follow-up is issued only after every append). -/
theorem chat_appends_tool_messages_in_order
    (cfg : ClientCfg) (st : OrchState) (parse : String → Option Args)
    (resp1 resp2 : Response) (msg : String) (am m2 : RespMessage)
    (hav : availableOf cfg.api_key = true)
    (h1 : respMessage resp1 = .ok am)
    (h2 : respMessage resp2 = .ok m2)
    (hne : am.tool_calls ≠ [])
    (hv : ∀ c ∈ am.tool_calls, callNameOk c = true ∧
      (st.registry.lookup (callName c)).isSome = true)
    ( _hdistinct : (am.tool_calls.map callName).Nodup) :
    ∃ res st2,
      Orchestrator.chat cfg st parse resp1 resp2 msg = .ok (res, st2,
        [ mkPayload cfg.model (sysMsgOf st :: (st.chat_history ++ [userMsg msg]))
            (some st.registry.describe_for_llm) (some "auto"),
          mkPayload cfg.model
            (sysMsgOf st :: (st.chat_history ++ [userMsg msg, assistMsgOf am] ++
              am.tool_calls.map (toolMsgOf st.registry parse))) none (some "auto") ]) ∧
      st2.chat_history =
        st.chat_history ++ [userMsg msg, assistMsgOf am] ++
          am.tool_calls.map (toolMsgOf st.registry parse) ++
          [({ role := "assistant", content := m2.content.getD "" } : Message)] ∧
      (am.tool_calls.map (toolMsgOf st.registry parse)).length = am.tool_calls.length ∧
      ∀ c ∈ am.tool_calls, (toolMsgOf st.registry parse c).role = "tool" ∧
        (toolMsgOf st.registry parse c).name = some (callName c) := by
  refine ⟨_, _, chat_tool_spec cfg st parse resp1 resp2 msg am m2 hav h1 h2 hne hv,
    rfl, by simp, ?_⟩
  intro c _
  exact ⟨rfl, rfl⟩

/-- Witness for `chat_appends_tool_messages_in_order`: two distinct
registered tools requested by a scripted response. -/
theorem chat_appends_tool_messages_in_order_witness :
    (availableOf wCfg.api_key = true ∧
     respMessage (wResp wAm) = .ok wAm ∧
     wAm.tool_calls ≠ [] ∧
     (∀ c ∈ wAm.tool_calls, callNameOk c = true ∧
       (wState.registry.lookup (callName c)).isSome = true) ∧
     (wAm.tool_calls.map callName).Nodup) ∧
    (∃ res st2 reqs,
      Orchestrator.chat wCfg wState wParse (wResp wAm) (wResp wM2) "привет" =
        .ok (res, st2, reqs) ∧
      st2.chat_history =
        wState.chat_history ++ [userMsg "привет", assistMsgOf wAm] ++
          wAm.tool_calls.map (toolMsgOf wState.registry wParse) ++
          [({ role := "assistant", content := wM2.content.getD "" } : Message)] ∧
      (wAm.tool_calls.map (toolMsgOf wState.registry wParse)).length =
        wAm.tool_calls.length) := by
  refine ⟨⟨rfl, rfl, by decide, by decide, by decide⟩, ?_⟩
  obtain ⟨res, st2, hchat, hhist, hlen, -⟩ :=
    chat_appends_tool_messages_in_order wCfg wState wParse (wResp wAm) (wResp wM2)
      "привет" wAm wM2 rfl rfl rfl (by decide) (by decide) (by decide)
  exact ⟨res, st2, _, hchat, hhist, hlen⟩

/-- C4: the follow-up completion request issued after tool dispatch never
carries a tools (or tool_choice) field, while the first request of the
turn carries the full descriptor list of the registry. -/
theorem chat_followup_carries_no_tools
    (cfg : ClientCfg) (st : OrchState) (parse : String → Option Args)
    (resp1 resp2 : Response) (msg : String) (am m2 : RespMessage)
    (hav : availableOf cfg.api_key = true)
    (h1 : respMessage resp1 = .ok am)
    (h2 : respMessage resp2 = .ok m2)
    (hne : am.tool_calls ≠ [])
    (hv : ∀ c ∈ am.tool_calls, callNameOk c = true ∧
      (st.registry.lookup (callName c)).isSome = true)
    (hdesc : st.registry.describe_for_llm ≠ []) :
    ∃ res st2 p1 p2,
      Orchestrator.chat cfg st parse resp1 resp2 msg = .ok (res, st2, [p1, p2]) ∧
      p1.tools = some st.registry.describe_for_llm ∧
      ¬ (p1.tools = none) ∧
      p2.tools = none ∧
      p2.tool_choice = none := by
  refine ⟨_, _, _, _, chat_tool_spec cfg st parse resp1 resp2 msg am m2 hav h1 h2 hne hv,
    ?_, ?_, rfl, rfl⟩
  · cases hl : st.registry.describe_for_llm with
    | nil => exact absurd hl hdesc
    | cons d ds => simp [mkPayload, hl]
  · cases hl : st.registry.describe_for_llm with
    | nil => exact absurd hl hdesc
    | cons d ds => simp [mkPayload, hl]

/-- Witness for `chat_followup_carries_no_tools` on the sample registry. -/
theorem chat_followup_carries_no_tools_witness :
    (availableOf wCfg.api_key = true ∧
     wState.registry.describe_for_llm ≠ [] ∧
     wAm.tool_calls ≠ []) ∧
    (∃ res st2 p1 p2,
      Orchestrator.chat wCfg wState wParse (wResp wAm) (wResp wM2) "привет" =
        .ok (res, st2, [p1, p2]) ∧
      p1.tools = some wState.registry.describe_for_llm ∧
      p2.tools = none ∧
      p2.tool_choice = none) := by
  refine ⟨⟨rfl, by decide, by decide⟩, ?_⟩
  obtain ⟨res, st2, p1, p2, hchat, htools, -, hp2, hpc⟩ :=
    chat_followup_carries_no_tools wCfg wState wParse (wResp wAm) (wResp wM2)
      "привет" wAm wM2 rfl rfl rfl (by decide) (by decide) (by decide)
  exact ⟨res, st2, p1, p2, hchat, htools, hp2, hpc⟩

/-- C6: when a requested call's serialized arguments string fails to
parse as JSON, the call is still dispatched — with the empty argument
object — and the turn completes normally. -/
theorem chat_malformed_arguments_degrade
    (cfg : ClientCfg) (st : OrchState) (parse : String → Option Args)
    (resp1 resp2 : Response) (msg : String) (am m2 : RespMessage)
    (c : RespToolCall) (t : Tool)
    (hav : availableOf cfg.api_key = true)
    (h1 : respMessage resp1 = .ok am)
    (h2 : respMessage resp2 = .ok m2)
    (hc : am.tool_calls = [c])
    (hok : callNameOk c = true)
    (ht : st.registry.lookup (callName c) = some t)
    (hbad : parse (getRawArgs c) = none) :
    ∃ res st2 reqs,
      Orchestrator.chat cfg st parse resp1 resp2 msg = .ok (res, st2, reqs) ∧
      res.used_tools =
        [{ name := callName c, arguments := some [], output := t.handler [] }] := by
  have hv : ∀ x ∈ am.tool_calls, callNameOk x = true ∧
      (st.registry.lookup (callName x)).isSome = true := by
    rw [hc]
    intro x hx
    rw [List.mem_singleton] at hx
    subst hx
    exact ⟨hok, by rw [ht]; rfl⟩
  refine ⟨_, _, _,
    chat_tool_spec cfg st parse resp1 resp2 msg am m2 hav h1 h2 (by rw [hc]; simp) hv, ?_⟩
  show am.tool_calls.map (usedToolOf st.registry parse) = _
  rw [hc]
  simp [usedToolOf, ht, hbad]

/-- Witness for `chat_malformed_arguments_degrade`: the failing parse
dispatches the registered sample tool with empty arguments. -/
theorem chat_malformed_arguments_degrade_witness :
    (callNameOk wCall1 = true ∧
     wState.registry.lookup (callName wCall1) = some wTool1 ∧
     wParseFail (getRawArgs wCall1) = none) ∧
    (∃ res st2 reqs,
      Orchestrator.chat wCfg wState wParseFail
        (wResp { content := some "", tool_calls := [wCall1] }) (wResp wM2) "привет" =
        .ok (res, st2, reqs) ∧
      res.used_tools =
        [{ name := callName wCall1, arguments := some [], output := wTool1.handler [] }]) := by
  refine ⟨⟨by decide, rfl, rfl⟩, ?_⟩
  exact chat_malformed_arguments_degrade wCfg wState wParseFail
    (wResp { content := some "", tool_calls := [wCall1] }) (wResp wM2) "привет"
    { content := some "", tool_calls := [wCall1] } wM2 wCall1 wTool1
    rfl rfl rfl rfl (by decide) rfl rfl

/-- C1 (amended): in online mode a tool call naming an unregistered tool
is not skipped — `ToolRegistry.run` raises `KeyError("Tool <name> is not
registered")`, which nothing in the online dispatch path catches, so the
chat turn aborts with that error and no result (hence no `used_tools`)
is produced. Only calls whose name is missing or empty are skipped. -/
theorem chat_unknown_tool_raises
    (cfg : ClientCfg) (st : OrchState) (parse : String → Option Args)
    (resp1 resp2 : Response) (msg : String) (am : RespMessage) (c : RespToolCall)
    (hav : availableOf cfg.api_key = true)
    (h1 : respMessage resp1 = .ok am)
    (hc : am.tool_calls = [c])
    (hok : callNameOk c = true)
    (hmiss : st.registry.lookup (callName c) = none) :
    ∃ st2, Orchestrator.chat cfg st parse resp1 resp2 msg =
      .error ("Tool " ++ callName c ++ " is not registered", st2) := by
  simp only [Orchestrator.chat, hav, Bool.true_eq_false, if_false, h1, hc,
    Orchestrator.process_tool_calls, hok, ToolRegistry.run, hmiss]
  exact ⟨_, rfl⟩

/-- C1 counterexample: with the sample registry (which has no tool named
"foo") and a first response calling "foo", the turn does not complete:
`chat` propagates the `KeyError`. -/
theorem chat_unknown_tool_counterexample :
    wState.registry.lookup "foo" = none ∧
    isOkE (Orchestrator.chat wCfg wState wParse (wResp wAmFoo) (wResp wM2) "привет") = false := by
  refine ⟨rfl, by decide⟩

/-- Witness for `chat_unknown_tool_raises` at the "foo" call. -/
theorem chat_unknown_tool_raises_witness :
    (callNameOk wCallFoo = true ∧
     wState.registry.lookup (callName wCallFoo) = none) ∧
    (∃ st2, Orchestrator.chat wCfg wState wParse (wResp wAmFoo) (wResp wM2) "привет" =
      .error ("Tool " ++ callName wCallFoo ++ " is not registered", st2)) := by
  refine ⟨⟨by decide, rfl⟩, ?_⟩
  exact chat_unknown_tool_raises wCfg wState wParse (wResp wAmFoo) (wResp wM2)
    "привет" wAmFoo wCallFoo rfl rfl rfl (by decide) rfl

/-- C5: in online mode, when the first response carries no tool calls
(absent or empty list), the turn issues exactly one request — the reply
list has a single payload — and the first response's content is the final
answer, with an empty `used_tools` ledger. -/
theorem chat_no_tool_calls_single_request
    (cfg : ClientCfg) (st : OrchState) (parse : String → Option Args)
    (resp1 resp2 : Response) (msg : String) (am : RespMessage)
    (hav : availableOf cfg.api_key = true)
    (h1 : respMessage resp1 = .ok am)
    (hc : am.tool_calls = []) :
    Orchestrator.chat cfg st parse resp1 resp2 msg = .ok
      ({ answer := am.content.getD "", used_tools := [],
         attachments := st.attachments.map AttachedDocument.name },
       { st with chat_history := st.chat_history ++
           [userMsg msg,
            ({ role := "assistant", content := am.content.getD "" } : Message)] },
       [ mkPayload cfg.model (sysMsgOf st :: (st.chat_history ++ [userMsg msg]))
           (some st.registry.describe_for_llm) (some "auto") ]) := by
  simp only [Orchestrator.chat, hav, Bool.true_eq_false, if_false, h1, hc]
  simp [userMsg, sysMsgOf, List.append_assoc]

/-- Witness for `chat_no_tool_calls_single_request`. -/
theorem chat_no_tool_calls_single_request_witness :
    (availableOf wCfg.api_key = true ∧
     respMessage (wResp wAmPlain) = .ok wAmPlain ∧
     wAmPlain.tool_calls = []) ∧
    Orchestrator.chat wCfg wState wParse (wResp wAmPlain) (wResp wM2) "привет" = .ok
      ({ answer := wAmPlain.content.getD "", used_tools := [],
         attachments := wState.attachments.map AttachedDocument.name },
       { wState with chat_history := wState.chat_history ++
           [userMsg "привет",
            ({ role := "assistant", content := wAmPlain.content.getD "" } : Message)] },
       [ mkPayload wCfg.model (sysMsgOf wState :: (wState.chat_history ++ [userMsg "привет"]))
           (some wState.registry.describe_for_llm) (some "auto") ]) :=
  ⟨⟨rfl, rfl, rfl⟩,
   chat_no_tool_calls_single_request wCfg wState wParse (wResp wAmPlain) (wResp wM2)
     "привет" wAmPlain rfl rfl rfl⟩

/-- Specialization of `process_tool_calls_appends` to an equation. -/
theorem process_appends_of_eq (reg : ToolRegistry) (parse : String → Option Args)
    (calls : List RespToolCall) (hist : List Message)
    (r : Except (String × List Message) (List UsedTool × List Message))
    (heq : Orchestrator.process_tool_calls reg parse hist calls = r) :
    ∃ t, histAfterPTC r = hist ++ t :=
  heq ▸ process_tool_calls_appends reg parse calls hist

/-- C7: conversation history is append-only. Whatever the mode (offline
fallback, online without tool calls, online with tool dispatch) and
whether the turn returns or raises, the state left behind extends the
prior history by a suffix; likewise tool dispatch itself only appends. -/
theorem chat_history_append_only
    (cfg : ClientCfg) (st : OrchState) (parse : String → Option Args)
    (resp1 resp2 : Response) (msg : String) :
    (∃ t, (stateAfter (Orchestrator.chat cfg st parse resp1 resp2 msg)).chat_history =
       st.chat_history ++ t) ∧
    (∀ (calls : List RespToolCall) (hist : List Message),
       ∃ t, histAfterPTC (Orchestrator.process_tool_calls st.registry parse hist calls) =
         hist ++ t) := by
  refine ⟨?_, process_tool_calls_appends st.registry parse⟩
  cases hav : availableOf cfg.api_key with
  | false =>
    simp only [Orchestrator.chat, hav, Orchestrator.offline_chat, stateAfter,
      eq_self_iff_true, if_true, List.append_assoc]
    exact ⟨_, rfl⟩
  | true =>
    cases hr1 : respMessage resp1 with
    | error e =>
      simp only [Orchestrator.chat, hav, Bool.true_eq_false, if_false, hr1, stateAfter]
      exact ⟨[], (List.append_nil _).symm⟩
    | ok am =>
      cases hcalls : am.tool_calls with
      | nil =>
        simp only [Orchestrator.chat, hav, Bool.true_eq_false, if_false, hr1, hcalls,
          stateAfter, List.append_assoc]
        exact ⟨_, rfl⟩
      | cons c0 r0 =>
        cases hr2 : respMessage resp2 with
        | error e2 =>
          simp only [Orchestrator.chat, hav, Bool.true_eq_false, if_false, hr1, hcalls, hr2]
          split
          next heq =>
            obtain ⟨t0, ht0⟩ := process_appends_of_eq _ _ _ _ _ heq
            simp only [histAfterPTC] at ht0
            simp only [stateAfter, ht0, List.append_assoc]
            exact ⟨_, rfl⟩
          next heq =>
            obtain ⟨t0, ht0⟩ := process_appends_of_eq _ _ _ _ _ heq
            simp only [histAfterPTC] at ht0
            simp only [stateAfter, ht0, List.append_assoc]
            exact ⟨_, rfl⟩
        | ok m2 =>
          simp only [Orchestrator.chat, hav, Bool.true_eq_false, if_false, hr1, hcalls, hr2]
          split
          next heq =>
            obtain ⟨t0, ht0⟩ := process_appends_of_eq _ _ _ _ _ heq
            simp only [histAfterPTC] at ht0
            simp only [stateAfter, ht0, List.append_assoc]
            exact ⟨_, rfl⟩
          next heq =>
            obtain ⟨t0, ht0⟩ := process_appends_of_eq _ _ _ _ _ heq
            simp only [histAfterPTC] at ht0
            simp only [stateAfter, ht0, List.append_assoc]
            exact ⟨_, rfl⟩

/-- The offline answer is the fixed headline joined with one summary line
per successfully run tool. -/
theorem offline_chat_answer (st : OrchState) (m : String) :
    (Orchestrator.offline_chat st m).1.answer =
      pyJoin ("GigaChat временно недоступен, но я использовал локальные инструменты." ::
        ((Orchestrator.offline_chat st m).1.used_tools.map
          (fun item => "Tool " ++ item.name ++ ": " ++ pyTake item.output 600))) := rfl

/-- C8: with an offline client (no credential) and the user text "покажи
примеры резюме", the keyword routing selects exactly
`career_resume_examples`, the returned answer starts with the literal
"GigaChat временно недоступен", and the turn issues no request at all
(the request list of the turn is empty). -/
theorem chat_offline_resume_examples
    (m : String) (st : OrchState) (parse : String → Option Args)
    (resp1 resp2 : Response) :
    ∃ res st2,
      Orchestrator.chat { api_key := none, model := m } st parse resp1 resp2
        "покажи примеры резюме" = .ok (res, st2, []) ∧
      pyStartswith "GigaChat временно недоступен" res.answer = true ∧
      Orchestrator.offlineToolNames "покажи примеры резюме" = ["career_resume_examples"] := by
  refine ⟨_, _, rfl, ?_, by decide⟩
  rw [offline_chat_answer]
  exact pyStartswith_pyJoin _ _ _ (by decide)
